import Mathlib

/-!
Shallow embedding of `tslua_add_language` from `src/testfiles/example.cpp`
(the registration operation of the spec), together with theorems settling
the frozen claims about it.

Modelling conventions:
* A C string pointer is `Option String` (`none` = NULL).
* A Lua stack value is either a text value or a non-text value; the host's
  `lua_isstring` is true exactly on text values (Lua's number-to-string
  coercion is not modelled, since no claim involves numbers).
* The Language Registry (`langs` in the source, accessed through
  `pmap_has`) is an association list from names to loaded-library handles.
* The Dynamic Loader (`uv_dlopen` / `uv_dlerror` / `uv_disclose`) is an
  external collaborator; it is a parameter of the operation, modelled as a
  function from the path to either a handle or a diagnostic string.
  The operation also returns the ordered list of loader calls it made,
  so that claims about loader invocations can be stated.
-/

set_option autoImplicit false

/-- A value on the Lua argument stack: either text or a value that is not
text-typed (nil, table, boolean, ...), for which `lua_isstring` is false. -/
inductive LuaValue where
  | str (s : String)
  | nonstr
  deriving DecidableEq

/-- A C string pointer: `none` models NULL. -/
abbrev CStr := Option String

/-- The host's `lua_isstring` on the (1-based in C, here 0-based) stack slot:
true iff the argument is present and text-typed. -/
def lua_isstring (v : Option LuaValue) : Bool :=
  match v with
  | some (.str _) => true
  | _ => false

/-- The host's `lua_tostring`: the text of a text value, NULL otherwise. -/
def lua_tostring (v : Option LuaValue) : CStr :=
  match v with
  | some (.str s) => some s
  | _ => none

/-- A loaded-library handle (opaque in the source; any countable token works). -/
abbrev Handle := Nat

/-- The Language Registry: mapping from language name to loaded handle
(`langs` in the source). -/
abbrev Registry := List (String × Handle)

/-- The source's `pmap_has(cstr_t)(langs, lang_name)`: is `lang_name` a key of
the registry?  A NULL key matches no entry (the C call with a NULL key is
undefined behaviour; no settled claim evaluates that case). -/
def pmap_has (langs : Registry) (lang_name : CStr) : Bool :=
  match lang_name with
  | some n => langs.any (fun p => p.1 == n)
  | none => false

/-- The Dynamic Loader collaborator: `openRes path` is `.ok h` when
`uv_dlopen` succeeds with handle `h`, and `.error e` when it fails and
`uv_dlerror` reports diagnostic text `e`. -/
structure Loader where
  openRes : CStr → Except String Handle

/-- One call the operation makes into the Dynamic Loader, in order. -/
inductive LoaderEvent where
  | openCall (path : CStr)
  | closeCall
  deriving DecidableEq

/-- The result the operation hands back to the scripting caller:
`ok` is `return 0`; `luaError msg` is `luaL_error` / `lua_error` with
message `msg`. -/
inductive RegResult where
  | ok
  | luaError (msg : String)
  deriving DecidableEq

/-- The fixed capacity of `symbol_buf` (line 21 of the source). -/
def BUFSIZE : Nat := 128

/-- The capacity of the host's `IObuff` message buffer.  The source uses
`IObuff`/`IOSIZE` without defining them; the value is the host system's
declaration.  No settled claim depends on the exact value (only on it
being at least 2). -/
def IOSIZE : Nat := 1024

/-- The string stored by `snprintf(buf, cap, "%s", s)`: at most `cap - 1`
characters of `s`, NUL-terminated (the NUL is not part of the string value). -/
def snprintf_str (cap : Nat) (s : String) : String :=
  String.mk (s.data.take (cap - 1))

/-- The full byte content the same `snprintf` call leaves in the buffer:
the truncated characters followed by the NUL terminator. -/
def snprintf_buf (cap : Nat) (s : String) : List Char :=
  s.data.take (cap - 1) ++ [Char.ofNat 0]

/-- The entry-symbol derivation of lines 21-23:
`snprintf(symbol_buf, BUFSIZE, "tree_sitter_%s", lang_name)`. -/
def derive_symbol (lang_name : String) : String :=
  snprintf_str BUFSIZE ("tree_sitter_" ++ lang_name)

/-- The diagnostic message built on the loader-failure branch (line 28):
`snprintf(IObuff, IOSIZE, "Failed to load parser: uv_dlopen: %s", uv_dlerror(&lib))`. -/
def load_fail_msg (e : String) : String :=
  snprintf_str IOSIZE ("Failed to load parser: uv_dlopen: " ++ e)

/-- The argument-validation condition of line 6, exactly as written:
`(lua_gettop(L) < 2 || !lua_isstring(L, 1)) && !lua_isstring(L, 2)`. -/
def argcheck_fails (args : List LuaValue) : Bool :=
  (decide (args.length < 2) || !(lua_isstring args[0]?))
    && !(lua_isstring args[1]?)

/-- Modelled from the spec: the success tail of the registration operation is
missing from the visible fragment (the function body ends right after the
loader-failure branch, with no statement for the success case).  Per the spec
it must "obtain a LoadedLibrary handle; insert `(name → handle)` into the
Language Registry; return success".  With a NULL name pointer the insertion is
undefined in the host; the model leaves the registry unchanged there (no
settled claim reaches that case). -/
def register_success_tail (langs : Registry) (lang_name : CStr) (h : Handle) :
    RegResult × Registry :=
  match lang_name with
  | some n => (.ok, (n, h) :: langs)
  | none => (.ok, langs)

/-- The operation of lines 4-33 of `src/testfiles/example.cpp`.  Returns the
result handed to the caller, the registry after the call, and the ordered
loader calls made during the call.

Line-by-line correspondence:
* line 6: `argcheck_fails` (note C stack indices 1 and 2 are `get? 0/1`);
* lines 10-11: `lua_tostring` for `path` and `lang_name`;
* lines 13-15: duplicate check `pmap_has`, `return 0`;
* lines 17-19: the for-loop; it runs its body zero times (see `hello_loop_run`
  and the C10 theorem) and has no observable effect, so it contributes nothing
  here;
* lines 21-23: `symbol_buf` derivation, computed into a dead local (the
  fragment never reads it afterwards); with a NULL `lang_name` the `%s`
  conversion is undefined behaviour, rendered as glibc's `"(null)"`,
  unreached by any settled claim;
* lines 26-32: `uv_dlopen`, and on failure build `load_fail_msg`, close the
  partially-acquired library with `uv_disclose`, and raise the error;
* after line 32: the spec-modelled success tail `register_success_tail`. -/
def tslua_add_language (ld : Loader) (langs : Registry) (args : List LuaValue) :
    RegResult × Registry × List LoaderEvent :=
  if argcheck_fails args then
    (.luaError "string expected", langs, [])
  else
    let path : CStr := lua_tostring args[0]?
    let lang_name : CStr := lua_tostring args[1]?
    if pmap_has langs lang_name then
      (.ok, langs, [])
    else
      let _symbol_buf := snprintf_buf BUFSIZE ("tree_sitter_" ++ lang_name.getD "(null)")
      match ld.openRes path with
      | .error e =>
          (.luaError (load_fail_msg e), langs, [.openCall path, .closeCall])
      | .ok h =>
          let (r, langs2) := register_success_tail langs lang_name h
          (r, langs2, [.openCall path])

/-- One evaluation of the loop condition `i++` of line 17 (post-increment:
the value tested is the old `i`, C truthiness is "nonzero"), returning the
incremented counter and the truth value. -/
def loop_cond (i : Int) : Int × Bool :=
  (i + 1, i != 0)

/-- The output lines the for-loop of lines 17-19 would print, fuel-bounded:
`for (int i=0; i++; i<10) { cout << 'Hello' << "\n"; }`.  The condition slot
holds `i++`; the step slot holds the effect-free comparison `i<10`. -/
def hello_loop_run (fuel : Nat) (i : Int) : List String :=
  match fuel with
  | 0 => []
  | fuel + 1 =>
      let (i2, c) := loop_cond i
      if c then ("Hello" ++ "\n") :: hello_loop_run fuel i2 else []

/-! Helper lemmas shared by the claim theorems. -/

/-- The success path of the operation, lines 26-27 followed by the
spec-modelled success tail: with a fresh name and a loader that opens `path`
with handle `h`, the call registers `(name, h)` and makes exactly one loader
call. -/
theorem add_language_success (ld : Loader) (langs : Registry) (path name : String)
    (h : Handle) (hdup : pmap_has langs (some name) = false)
    (hopen : ld.openRes (some path) = .ok h) :
    tslua_add_language ld langs [.str path, .str name]
      = (.ok, (name, h) :: langs, [.openCall (some path)]) := by
  simp [tslua_add_language, argcheck_fails, lua_isstring, lua_tostring, hdup, hopen,
    register_success_tail]

/-- The duplicate path, lines 13-15: with `name` already registered the call
returns 0 at once, leaving the registry alone and making no loader call. -/
theorem add_language_dup (ld : Loader) (langs : Registry) (path name : String)
    (hdup : pmap_has langs (some name) = true) :
    tslua_add_language ld langs [.str path, .str name] = (.ok, langs, []) := by
  simp [tslua_add_language, argcheck_fails, lua_isstring, lua_tostring, hdup]

/-- The loader-failure path, lines 27-32: the call raises the formatted
diagnostic, leaves the registry alone, and its loader calls are the failed
open followed by the close. -/
theorem add_language_fail (ld : Loader) (langs : Registry) (path name e : String)
    (hdup : pmap_has langs (some name) = false)
    (hopen : ld.openRes (some path) = .error e) :
    tslua_add_language ld langs [.str path, .str name]
      = (.luaError (load_fail_msg e), langs, [.openCall (some path), .closeCall]) := by
  simp [tslua_add_language, argcheck_fails, lua_isstring, lua_tostring, hdup, hopen]

/-- A name that is not a key of the registry has zero entries in it. -/
theorem pmap_has_false_countP {langs : Registry} {n : String}
    (h : pmap_has langs (some n) = false) :
    langs.countP (fun p => p.1 == n) = 0 := by
  simp only [pmap_has, List.any_eq_false] at h
  exact List.countP_eq_zero.mpr h

/-- Length of the loader-failure diagnostic: the 34-character fixed prefix
plus the loader's text, truncated by `snprintf` to `IOSIZE - 1`. -/
theorem load_fail_msg_length (e : String) :
    (load_fail_msg e).length = min 1023 (34 + e.length) := by
  have h0 : (load_fail_msg e).length
      = (("Failed to load parser: uv_dlopen: " ++ e).data.take 1023).length := rfl
  have h1 : ("Failed to load parser: uv_dlopen: " ++ e).data
      = ("Failed to load parser: uv_dlopen: ").data ++ e.data := rfl
  have h2 : ("Failed to load parser: uv_dlopen: ").data.length = 34 := by decide
  have h3 : e.data.length = e.length := rfl
  rw [h0, List.length_take, h1, List.length_append, h2, h3]

/-- The loader-failure diagnostic is never the empty string: its fixed prefix
alone already has 34 characters. -/
theorem load_fail_msg_ne_empty (e : String) : load_fail_msg e ≠ "" := by
  intro hc
  have h1 : (load_fail_msg e).length = 0 := by rw [hc]; rfl
  rw [load_fail_msg_length] at h1
  omega

/-! Claim theorems. -/

/-- C1: the claim says every call with fewer than two arguments, or with a
non-text value among the first two, fails with "string expected" and performs
no further action.  The code's condition on line 6,
`(lua_gettop(L) < 2 || !lua_isstring(L, 1)) && !lua_isstring(L, 2)`, is false
for the call `(nonstring, "python")`: that invalid call passes validation, is
not rejected with "string expected", and goes on to invoke the loader. -/
theorem tslua_C1_argcheck :
    argcheck_fails [.nonstr, .str "python"] = false ∧
    (tslua_add_language ⟨fun _ => .error "file not found"⟩ [] [.nonstr, .str "python"]).1
      ≠ .luaError "string expected" ∧
    (tslua_add_language ⟨fun _ => .error "file not found"⟩ [] [.nonstr, .str "python"]).2.2
      ≠ [] := by
  refine ⟨by decide, by decide, by decide⟩

/-- C2: for a not-yet-registered name and a loader that opens `path` with
handle `h`, the call returns success, the registry afterwards contains
`(name, h)`, and the only loader call is the open.  The insertion itself is
the spec-modelled success tail, since the fragment ends before it. -/
theorem tslua_C2_success (ld : Loader) (langs : Registry) (path name : String) (h : Handle)
    (hdup : pmap_has langs (some name) = false)
    (hopen : ld.openRes (some path) = .ok h) :
    tslua_add_language ld langs [.str path, .str name]
      = (.ok, (name, h) :: langs, [.openCall (some path)]) :=
  add_language_success ld langs path name h hdup hopen

/-- Witness for C2 at the spec's scenario input. -/
theorem tslua_C2_success_witness :
    pmap_has [] (some "python") = false ∧
    (Loader.mk fun _ => Except.ok 7).openRes (some "/usr/lib/libtspython.so") = .ok 7 ∧
    tslua_add_language ⟨fun _ => .ok 7⟩ [] [.str "/usr/lib/libtspython.so", .str "python"]
      = (.ok, [("python", 7)], [.openCall (some "/usr/lib/libtspython.so")]) :=
  ⟨by decide, rfl,
    tslua_C2_success ⟨fun _ => .ok 7⟩ [] "/usr/lib/libtspython.so" "python" 7 (by decide) rfl⟩

/-- C3: with `name` already registered the call returns success immediately,
the registry (and so the stored handle) is unchanged, and the loader is not
invoked (no loader events at all). -/
theorem tslua_C3_dup (ld : Loader) (langs : Registry) (path name : String)
    (hdup : pmap_has langs (some name) = true) :
    tslua_add_language ld langs [.str path, .str name] = (.ok, langs, []) :=
  add_language_dup ld langs path name hdup

/-- Witness for C3 with a registry already holding "python". -/
theorem tslua_C3_dup_witness :
    pmap_has [("python", 3)] (some "python") = true ∧
    tslua_add_language ⟨fun _ => .ok 7⟩ [("python", 3)] [.str "/x.so", .str "python"]
      = (.ok, [("python", 3)], []) :=
  ⟨by decide, tslua_C3_dup ⟨fun _ => .ok 7⟩ [("python", 3)] "/x.so" "python" (by decide)⟩

/-- C4: when the loader fails to open `path` with diagnostic `e`, the call
raises the failure message built from the loader's text, that message is
non-empty, the registry is returned unchanged, and no entry for `name`
appears in it. -/
theorem tslua_C4_loadfail (ld : Loader) (langs : Registry) (path name e : String)
    (hdup : pmap_has langs (some name) = false)
    (hopen : ld.openRes (some path) = .error e) :
    tslua_add_language ld langs [.str path, .str name]
      = (.luaError (load_fail_msg e), langs, [.openCall (some path), .closeCall])
    ∧ load_fail_msg e ≠ ""
    ∧ pmap_has (tslua_add_language ld langs [.str path, .str name]).2.1 (some name)
        = false := by
  have heq := add_language_fail ld langs path name e hdup hopen
  exact ⟨heq, load_fail_msg_ne_empty e, by rw [heq]; exact hdup⟩

/-- Witness for C4 at the spec's failing-scenario input. -/
theorem tslua_C4_loadfail_witness :
    pmap_has [] (some "python") = false ∧
    (Loader.mk fun _ => Except.error "file not found").openRes (some "/no/such/file.so")
      = .error "file not found" ∧
    (tslua_add_language ⟨fun _ => .error "file not found"⟩ []
        [.str "/no/such/file.so", .str "python"]
      = (.luaError (load_fail_msg "file not found"), [],
          [.openCall (some "/no/such/file.so"), .closeCall])
    ∧ load_fail_msg "file not found" ≠ ""
    ∧ pmap_has (tslua_add_language ⟨fun _ => .error "file not found"⟩ []
        [.str "/no/such/file.so", .str "python"]).2.1 (some "python") = false) :=
  ⟨by decide, rfl,
    tslua_C4_loadfail ⟨fun _ => .error "file not found"⟩ [] "/no/such/file.so" "python"
      "file not found" (by decide) rfl⟩

/-- C5: the entry-symbol derivation is the fixed prefix "tree_sitter_"
followed by the supplied name (whenever the result fits the 128-byte buffer,
i.e. has at most 127 characters), and in particular maps "python" to
"tree_sitter_python". -/
theorem tslua_C5_symbol :
    derive_symbol "python" = "tree_sitter_python"
    ∧ ∀ n : String, ("tree_sitter_" ++ n).length ≤ 127 →
        derive_symbol n = "tree_sitter_" ++ n := by
  refine ⟨rfl, fun n hlen => ?_⟩
  have hl : ("tree_sitter_" ++ n).data.length ≤ 127 := hlen
  show String.mk (("tree_sitter_" ++ n).data.take 127) = "tree_sitter_" ++ n
  rw [List.take_of_length_le hl]

/-- Witness for C5's bounded-length hypothesis at the name "lua". -/
theorem tslua_C5_symbol_witness :
    ("tree_sitter_" ++ "lua").length ≤ 127 ∧
    derive_symbol "lua" = "tree_sitter_" ++ "lua" :=
  ⟨by decide, tslua_C5_symbol.2 "lua" (by decide)⟩

/-- C6: registering the same `(path, name)` twice with a loader that would
succeed leaves the registry with exactly one entry for `name`, and across the
two calls the loader is invoked exactly once (all loader events of both calls
amount to the single open).  The first call's insertion is the spec-modelled
success tail. -/
theorem tslua_C6_idem (ld : Loader) (langs : Registry) (path name : String) (h : Handle)
    (hdup : pmap_has langs (some name) = false)
    (hopen : ld.openRes (some path) = .ok h) :
    (tslua_add_language ld (tslua_add_language ld langs [.str path, .str name]).2.1
        [.str path, .str name]).2.1 = (name, h) :: langs
    ∧ ((tslua_add_language ld (tslua_add_language ld langs [.str path, .str name]).2.1
        [.str path, .str name]).2.1).countP (fun p => p.1 == name) = 1
    ∧ (tslua_add_language ld langs [.str path, .str name]).2.2
        ++ (tslua_add_language ld (tslua_add_language ld langs [.str path, .str name]).2.1
            [.str path, .str name]).2.2
      = [.openCall (some path)] := by
  have h1 := add_language_success ld langs path name h hdup hopen
  have hdup2 : pmap_has ((name, h) :: langs) (some name) = true := by
    simp [pmap_has]
  have h2 := add_language_dup ld ((name, h) :: langs) path name hdup2
  rw [h1, h2]
  refine ⟨rfl, ?_, rfl⟩
  show ((name, h) :: langs).countP (fun p => p.1 == name) = 1
  rw [List.countP_cons_of_pos _ _ (by simp), pmap_has_false_countP hdup]

/-- Witness for C6 at a concrete double registration. -/
theorem tslua_C6_idem_witness :
    pmap_has [] (some "python") = false ∧
    (Loader.mk fun _ => Except.ok 7).openRes (some "/x.so") = .ok 7 ∧
    ((tslua_add_language ⟨fun _ => .ok 7⟩
        (tslua_add_language ⟨fun _ => .ok 7⟩ [] [.str "/x.so", .str "python"]).2.1
        [.str "/x.so", .str "python"]).2.1 = [("python", 7)]
    ∧ ((tslua_add_language ⟨fun _ => .ok 7⟩
        (tslua_add_language ⟨fun _ => .ok 7⟩ [] [.str "/x.so", .str "python"]).2.1
        [.str "/x.so", .str "python"]).2.1).countP (fun p => p.1 == "python") = 1
    ∧ (tslua_add_language ⟨fun _ => .ok 7⟩ [] [.str "/x.so", .str "python"]).2.2
        ++ (tslua_add_language ⟨fun _ => .ok 7⟩
            (tslua_add_language ⟨fun _ => .ok 7⟩ [] [.str "/x.so", .str "python"]).2.1
            [.str "/x.so", .str "python"]).2.2
      = [.openCall (some "/x.so")]) :=
  ⟨by decide, rfl,
    tslua_C6_idem ⟨fun _ => .ok 7⟩ [] "/x.so" "python" 7 (by decide) rfl⟩

/-- C7: for a name whose derived symbol would overflow the 128-byte
`symbol_buf`, the `snprintf` call leaves the buffer holding exactly the first
127 characters of the concatenation followed by the NUL terminator, filling
the buffer to exactly its capacity and no further, and the derived string is
that 127-character truncation. -/
theorem tslua_C7_truncate (n : String) (hlen : 128 ≤ ("tree_sitter_" ++ n).length) :
    snprintf_buf BUFSIZE ("tree_sitter_" ++ n)
      = ("tree_sitter_" ++ n).data.take 127 ++ [Char.ofNat 0]
    ∧ (snprintf_buf BUFSIZE ("tree_sitter_" ++ n)).length = BUFSIZE
    ∧ derive_symbol n = String.mk (("tree_sitter_" ++ n).data.take 127) := by
  refine ⟨rfl, ?_, rfl⟩
  have hd : ("tree_sitter_" ++ n).data.length = ("tree_sitter_" ++ n).length := rfl
  show (("tree_sitter_" ++ n).data.take 127 ++ [Char.ofNat 0]).length = 128
  rw [List.length_append, List.length_take]
  simp only [List.length_cons, List.length_nil]
  omega

set_option maxRecDepth 8000 in
/-- Witness for C7 at a 116-character name, whose derived symbol has 128
characters and overflows the buffer by one. -/
theorem tslua_C7_truncate_witness :
    128 ≤ ("tree_sitter_" ++ String.mk (List.replicate 116 'a')).length ∧
    (snprintf_buf BUFSIZE ("tree_sitter_" ++ String.mk (List.replicate 116 'a'))
      = ("tree_sitter_" ++ String.mk (List.replicate 116 'a')).data.take 127 ++ [Char.ofNat 0]
    ∧ (snprintf_buf BUFSIZE ("tree_sitter_" ++ String.mk (List.replicate 116 'a'))).length
        = BUFSIZE
    ∧ derive_symbol (String.mk (List.replicate 116 'a'))
        = String.mk (("tree_sitter_" ++ String.mk (List.replicate 116 'a')).data.take 127)) :=
  ⟨by decide, tslua_C7_truncate (String.mk (List.replicate 116 'a')) (by decide)⟩

/-- C8: on the loader-failure exit path the loader's close call (`uv_disclose`
on line 29) is made on the partially-acquired library, after the failed open
and before the error is raised: the complete, ordered loader-call list of the
call is open-then-close, and the call returns the LoadFailed diagnostic. -/
theorem tslua_C8_close (ld : Loader) (langs : Registry) (path name e : String)
    (hdup : pmap_has langs (some name) = false)
    (hopen : ld.openRes (some path) = .error e) :
    (tslua_add_language ld langs [.str path, .str name]).2.2
      = [.openCall (some path), .closeCall]
    ∧ (tslua_add_language ld langs [.str path, .str name]).1
      = .luaError (load_fail_msg e) := by
  have heq := add_language_fail ld langs path name e hdup hopen
  rw [heq]
  exact ⟨rfl, rfl⟩

/-- Witness for C8 at a concrete failing load. -/
theorem tslua_C8_close_witness :
    pmap_has [] (some "python") = false ∧
    (Loader.mk fun _ => Except.error "boom").openRes (some "/x.so") = .error "boom" ∧
    ((tslua_add_language ⟨fun _ => .error "boom"⟩ [] [.str "/x.so", .str "python"]).2.2
      = [.openCall (some "/x.so"), .closeCall]
    ∧ (tslua_add_language ⟨fun _ => .error "boom"⟩ [] [.str "/x.so", .str "python"]).1
      = .luaError (load_fail_msg "boom")) :=
  ⟨by decide, rfl,
    tslua_C8_close ⟨fun _ => .error "boom"⟩ [] "/x.so" "python" "boom" (by decide) rfl⟩

/-- C10: the for-loop of lines 17-19 runs its body zero times for any fuel
bound, because its condition slot holds the post-increment `i++`, which
yields the initial value 0, i.e. false, at the very first test; so the output
statement in its body never executes and the loop has no observable effect. -/
theorem tslua_C10_loop (fuel : Nat) : hello_loop_run fuel 0 = [] := by
  cases fuel with
  | zero => rfl
  | succ f => simp [hello_loop_run, loop_cond]

/-- Witness for C10 at a concrete fuel bound. -/
theorem tslua_C10_loop_witness : hello_loop_run 5 0 = [] := tslua_C10_loop 5
